import Mathlib

/-!
Shallow embedding of the two tool functions of this repository:

* `agents_prompting_structured_data.py`: `extract_invoice_data` (schema-constrained
  extraction delegated to the external capability `prompt_llm_for_json`) and
  `store_invoice` (truthiness-checked upsert of an invoice dict into a mapping held
  in the caller-supplied `ActionContext`).
* `agents_flexibility_and_reliability.py`: a second `extract_invoice_data` variant
  with a richer schema.

Python dicts are embedded as insertion-ordered association lists (`PyDict`), Python
values as the inductive `PyVal`.  Python assignment `d[k] = v` replaces the value at
the first occurrence of `k` (keeping the original key and position) or appends a new
entry; `d.get(k)`/`d.get(k, default)` look the key up without inserting.  Exceptions
are embedded as `Except`: `ValueError(msg)` becomes `Except.error msg`.

The `@register_tool` decorators carry only presentational tag metadata and are not
modelled.  The classes `ActionContext` and `prompt_llm_for_json` are external to the
repository: `prompt_llm_for_json` is taken as an explicit function parameter (a black
box, exactly as the source treats it), and the one `ActionContext` operation the
source uses is modelled from the spec (see `ActionContext.get`).
-/

mutual

/-- Embedding of the Python values this code manipulates: `None`, booleans, numbers
(the claims only need integral amounts, so numbers are `Int`), strings, lists and
dicts.  Floats beyond integral values do not occur in any claim. -/
inductive PyVal where
  | none : PyVal
  | bool : Bool → PyVal
  | int : Int → PyVal
  | str : String → PyVal
  | list : PyList → PyVal
  | dict : PyDict → PyVal
deriving DecidableEq

/-- A Python list of `PyVal`s (spelled as its own inductive so that equality and all
operations are structurally recursive). -/
inductive PyList where
  | nil : PyList
  | cons : PyVal → PyList → PyList
deriving DecidableEq

/-- A Python dict: an insertion-ordered association list of key/value pairs.  A dict
built only by Python dict operations never holds two entries with the same key. -/
inductive PyDict where
  | nil : PyDict
  | cons : PyVal → PyVal → PyDict → PyDict
deriving DecidableEq

end

/-- Build a `PyList` from a Lean list literal (notation helper for concrete values). -/
def PyList.ofList : List PyVal → PyList
  | [] => .nil
  | v :: rest => .cons v (PyList.ofList rest)

/-- Build a `PyDict` from a Lean list literal (notation helper for concrete values). -/
def PyDict.ofList : List (PyVal × PyVal) → PyDict
  | [] => .nil
  | (k, v) :: rest => .cons k v (PyDict.ofList rest)

/-- Python `d.get(key)` / `d.get(key, default)` without the default applied: the value
at the first entry whose key equals `key`, if any.  No insertion happens. -/
def PyDict.get? : PyDict → PyVal → Option PyVal
  | .nil, _ => Option.none
  | .cons k v rest, key => if k = key then some v else PyDict.get? rest key

/-- Python `d.get(key, default)`. -/
def PyDict.getD (d : PyDict) (key default : PyVal) : PyVal :=
  (d.get? key).getD default

/-- Python assignment `d[key] = v`: replace the value at the first entry whose key
equals `key` (keeping the key and its position), else append `(key, v)` at the end. -/
def PyDict.set : PyDict → PyVal → PyVal → PyDict
  | .nil, key, v => .cons key v .nil
  | .cons k w rest, key, v =>
      if k = key then .cons k v rest else .cons k w (PyDict.set rest key v)

/-- Python `len(d)`. -/
def PyDict.length : PyDict → Nat
  | .nil => 0
  | .cons _ _ rest => 1 + PyDict.length rest

/-- Python `key in d`. -/
def PyDict.containsKey : PyDict → PyVal → Bool
  | .nil, _ => false
  | .cons k _ rest, key => if k = key then true else PyDict.containsKey rest key

/-- Number of entries of `d` whose key equals `key` (1 for present, 0 for absent in a
well-formed dict; used to state "exactly one entry"). -/
def PyDict.countKey : PyDict → PyVal → Nat
  | .nil, _ => 0
  | .cons k _ rest, key =>
      (if k = key then 1 else 0) + PyDict.countKey rest key

/-- Well-formedness of the association-list embedding: no two entries share a key.
Every dict produced by Python dict operations satisfies this. -/
def PyDict.nodupKeys : PyDict → Bool
  | .nil => true
  | .cons k _ rest => !(PyDict.containsKey rest k) && PyDict.nodupKeys rest

/-- All entries of the dict satisfy the binary predicate `P` on key and value. -/
def PyDict.AllEntries (P : PyVal → PyVal → Prop) : PyDict → Prop
  | .nil => True
  | .cons k v rest => P k v ∧ PyDict.AllEntries P rest

/-- Python truthiness, as tested by `if not invoice_number:`.  Falsy values: `None`,
`False`, zero, the empty string, the empty list, the empty dict. -/
def PyVal.truthy : PyVal → Bool
  | .none => false
  | .bool b => b
  | .int n => decide (n ≠ 0)
  | .str s => decide (s ≠ "")
  | .list .nil => false
  | .list (.cons _ _) => true
  | .dict .nil => false
  | .dict (.cons _ _ _) => true

mutual

/-- Python `str(v)`, as used by the f-string `f"Stored invoice {invoice_number}"`.
On strings, `str` is the identity (exact); on other values it falls back to the
`repr` rendering.  The claims only inspect this message for string and scalar
invoice numbers, where the rendering below is exact. -/
def PyVal.pyStr : PyVal → String
  | .str s => s
  | v => PyVal.pyRepr v

/-- Python `repr(v)`.  Quote-escaping inside strings is elided (no claim exercises
it); everything else follows CPython: `None`, `True`/`False`, decimal integers,
single-quoted strings, bracketed lists, braced dicts. -/
def PyVal.pyRepr : PyVal → String
  | .none => "None"
  | .bool true => "True"
  | .bool false => "False"
  | .int n => toString n
  | .str s => "\x27" ++ s ++ "\x27"
  | .list xs => "[" ++ PyList.pyReprElems xs ++ "]"
  | .dict d => "\x7b" ++ PyDict.pyReprEntries d ++ "\x7d"

/-- Comma-separated `repr`s of the elements of a list. -/
def PyList.pyReprElems : PyList → String
  | .nil => ""
  | .cons v .nil => PyVal.pyRepr v
  | .cons v rest => PyVal.pyRepr v ++ ", " ++ PyList.pyReprElems rest

/-- Comma-separated `repr`s of the entries of a dict. -/
def PyDict.pyReprEntries : PyDict → String
  | .nil => ""
  | .cons k v .nil => PyVal.pyRepr k ++ ": " ++ PyVal.pyRepr v
  | .cons k v rest => PyVal.pyRepr k ++ ": " ++ PyVal.pyRepr v ++ ", " ++ PyDict.pyReprEntries rest

end

/-- The caller-supplied execution context, reduced to the single slot this code reads:
the `"invoice_storage"` property, absent (`Option.none`) until something puts a
mapping there. -/
structure ActionContext where
  invoice_storage : Option PyDict
deriving DecidableEq

/-- Modelled from the spec: the `ActionContext` class is not part of this repository;
only the call `action_context.get("invoice_storage", {})` appears in the source.  The
spec says Store "looks up (or lazily creates) a keyed mapping from a caller-supplied
context" and that the mutation of that mapping "is the only observable state change",
so a `get` with a default on a missing slot lazily creates the mapping and attaches it
to the context, making later writes to the returned mapping observable through the
context.  Returns the mapping together with the context after the lookup. -/
def ActionContext.get (ctx : ActionContext) (default : PyDict) : PyDict × ActionContext :=
  match ctx.invoice_storage with
  | some s => (s, ctx)
  | Option.none => (default, ⟨some default⟩)

/-- The invoice mapping currently held by the context: its entries, or none at all
(the empty dict) when the slot is absent. -/
def ActionContext.storedInvoices (ctx : ActionContext) : PyDict :=
  ctx.invoice_storage.getD .nil

/-- Embedding of `store_invoice` (`agents_prompting_structured_data.py`, lines
85–112).  Fetches the invoice storage from the context, reads
`invoice_data.get("invoice_number")`, raises
`ValueError("Invoice data must contain an invoice number")` if that value is falsy,
otherwise executes `storage[invoice_number] = invoice_data` and returns the success
dict.  The returned pair is (result or raised error, context after the call); the
in-place mutation of the storage dict is reflected as the updated context, since the
context holds that same dict object. -/
def store_invoice (action_context : ActionContext) (invoice_data : PyDict) :
    Except String PyVal × ActionContext :=
  let p := action_context.get PyDict.nil
  let storage := p.1
  let ctx := p.2
  let invoice_number := invoice_data.getD (.str "invoice_number") .none
  if invoice_number.truthy = false then
    (Except.error "Invoice data must contain an invoice number", ctx)
  else
    (Except.ok (.dict (PyDict.ofList
        [(.str "status", .str "success"),
         (.str "message", .str ("Stored invoice " ++ invoice_number.pyStr)),
         (.str "invoice_number", invoice_number)])),
     ⟨some (storage.set invoice_number (.dict invoice_data))⟩)

namespace AgentsPromptingStructuredData

/-- The fixed invoice schema of `agents_prompting_structured_data.py` (lines 33–60),
embedded verbatim as a Python dict value: required fields `invoice_number`, `date`,
`total_amount`; optional `vendor` and `line_items`. -/
def invoice_schema : PyVal :=
  .dict (.ofList
    [(.str "type", .str "object"),
     (.str "required", .list (.ofList [.str "invoice_number", .str "date", .str "total_amount"])),
     (.str "properties", .dict (.ofList
       [(.str "invoice_number", .dict (.ofList [(.str "type", .str "string")])),
        (.str "date", .dict (.ofList [(.str "type", .str "string")])),
        (.str "total_amount", .dict (.ofList [(.str "type", .str "number")])),
        (.str "vendor", .dict (.ofList
          [(.str "type", .str "object"),
           (.str "properties", .dict (.ofList
             [(.str "name", .dict (.ofList [(.str "type", .str "string")])),
              (.str "address", .dict (.ofList [(.str "type", .str "string")]))]))])),
        (.str "line_items", .dict (.ofList
          [(.str "type", .str "array"),
           (.str "items", .dict (.ofList
             [(.str "type", .str "object"),
              (.str "properties", .dict (.ofList
                [(.str "description", .dict (.ofList [(.str "type", .str "string")])),
                 (.str "quantity", .dict (.ofList [(.str "type", .str "number")])),
                 (.str "unit_price", .dict (.ofList [(.str "type", .str "number")])),
                 (.str "total", .dict (.ofList [(.str "type", .str "number")]))]))]))]))]))])

/-- The extraction f-string of `agents_prompting_structured_data.py` (lines 63–76)
with the document text interpolated inside the `<invoice>` tags.  The prose is kept
word for word; indentation whitespace and the quote characters around the field-label
examples are elided (no claim inspects the prompt text). -/
def extraction_prompt (document_text : String) : String :=
  "\nYou are an expert invoice analyzer. Extract invoice information accurately and \nthoroughly. Pay special attention to:\n- Invoice numbers (look for Invoice #, No., Reference, etc.)\n- Dates (focus on invoice date or issue date)\n- Amounts (ensure you capture the total amount correctly)\n- Line items (capture all individual charges)\n\nStop and think step by step. Then, extract the invoice data from:\n\n<invoice>\n" ++ document_text ++ "\n</invoice>\n"

/-- Embedding of `extract_invoice_data` (`agents_prompting_structured_data.py`, lines
18–83).  The external capability `prompt_llm_for_json` is not defined in the
repository, so it is an explicit parameter: it receives the action context, the
schema and the prompt, and yields either a dict or a raised error `ε`, together with
the context after the call.  The function body builds the schema and prompt and
returns the capability's result directly. -/
def extract_invoice_data {ε : Type}
    (prompt_llm_for_json : ActionContext → PyVal → String → Except ε PyDict × ActionContext)
    (action_context : ActionContext) (document_text : String) :
    Except ε PyDict × ActionContext :=
  prompt_llm_for_json action_context invoice_schema (extraction_prompt document_text)

end AgentsPromptingStructuredData

namespace AgentsFlexibilityAndReliability

/-- The fixed invoice schema of `agents_flexibility_and_reliability.py` (lines
31–68), embedded verbatim: required fields `invoice_number`, `date`, `amount`, with
`amount` a nested `{value, currency}` object, optional `vendor` (with required
`name`) and `line_items` (each with required `description` and `total`). -/
def invoice_schema : PyVal :=
  .dict (.ofList
    [(.str "type", .str "object"),
     (.str "required", .list (.ofList [.str "invoice_number", .str "date", .str "amount"])),
     (.str "properties", .dict (.ofList
       [(.str "invoice_number", .dict (.ofList [(.str "type", .str "string")])),
        (.str "date", .dict (.ofList [(.str "type", .str "string"), (.str "format", .str "date")])),
        (.str "amount", .dict (.ofList
          [(.str "type", .str "object"),
           (.str "properties", .dict (.ofList
             [(.str "value", .dict (.ofList [(.str "type", .str "number")])),
              (.str "currency", .dict (.ofList [(.str "type", .str "string")]))])),
           (.str "required", .list (.ofList [.str "value", .str "currency"]))])),
        (.str "vendor", .dict (.ofList
          [(.str "type", .str "object"),
           (.str "properties", .dict (.ofList
             [(.str "name", .dict (.ofList [(.str "type", .str "string")])),
              (.str "tax_id", .dict (.ofList [(.str "type", .str "string")])),
              (.str "address", .dict (.ofList [(.str "type", .str "string")]))])),
           (.str "required", .list (.ofList [.str "name"]))])),
        (.str "line_items", .dict (.ofList
          [(.str "type", .str "array"),
           (.str "items", .dict (.ofList
             [(.str "type", .str "object"),
              (.str "properties", .dict (.ofList
                [(.str "description", .dict (.ofList [(.str "type", .str "string")])),
                 (.str "quantity", .dict (.ofList [(.str "type", .str "number")])),
                 (.str "unit_price", .dict (.ofList [(.str "type", .str "number")])),
                 (.str "total", .dict (.ofList [(.str "type", .str "number")]))])),
              (.str "required", .list (.ofList [.str "description", .str "total"]))]))]))]))])

/-- The extraction f-string of `agents_flexibility_and_reliability.py` (lines 71–82)
with the document text interpolated after the `Document text:` header.  Prose kept
word for word; indentation whitespace and the quote characters around the field-label
examples are elided (no claim inspects the prompt text). -/
def extraction_prompt (document_text : String) : String :=
  "\nExtract invoice information from the following document text. \nFocus on identifying:\n- Invoice number (usually labeled as Invoice #, Reference, etc.)\n- Date (any dates labeled as Invoice Date, Issue Date, etc.)\n- Amount (total amount due, including currency)\n- Vendor information (company name, tax ID if present, address)\n- Line items (individual charges and their details)\n\nDocument text:\n" ++ document_text ++ "\n"

/-- Embedding of `extract_invoice_data` (`agents_flexibility_and_reliability.py`,
lines 18–89): identical delegation shape to the other variant, with this file's
schema and prompt. -/
def extract_invoice_data {ε : Type}
    (prompt_llm_for_json : ActionContext → PyVal → String → Except ε PyDict × ActionContext)
    (action_context : ActionContext) (document_text : String) :
    Except ε PyDict × ActionContext :=
  prompt_llm_for_json action_context invoice_schema (extraction_prompt document_text)

end AgentsFlexibilityAndReliability

theorem PyDict.get?_set : (S : PyDict) → (k v : PyVal) → (S.set k v).get? k = some v
  | .nil, k, v => by simp [PyDict.set, PyDict.get?]
  | .cons k' w rest, k, v => by
      by_cases h : k' = k
      · simp [PyDict.set, PyDict.get?, h]
      · simp [PyDict.set, PyDict.get?, h, PyDict.get?_set rest k v]

theorem PyDict.set_set : (S : PyDict) → (k v₁ v₂ : PyVal) →
    (S.set k v₁).set k v₂ = S.set k v₂
  | .nil, k, v₁, v₂ => by simp [PyDict.set]
  | .cons k' w rest, k, v₁, v₂ => by
      by_cases h : k' = k
      · simp [PyDict.set, h]
      · simp [PyDict.set, h, PyDict.set_set rest k v₁ v₂]

theorem PyDict.countKey_eq_zero : (S : PyDict) → (k : PyVal) →
    S.containsKey k = false → S.countKey k = 0
  | .nil, k, _ => by simp [PyDict.countKey]
  | .cons k' w rest, k, h => by
      by_cases hk : k' = k
      · simp [PyDict.containsKey, hk] at h
      · simp [PyDict.containsKey, hk] at h
        simp [PyDict.countKey, hk, PyDict.countKey_eq_zero rest k h]

theorem PyDict.countKey_set : (S : PyDict) → (k v : PyVal) →
    S.nodupKeys = true → (S.set k v).countKey k = 1
  | .nil, k, v, _ => by simp [PyDict.set, PyDict.countKey]
  | .cons k' w rest, k, v, h => by
      simp [PyDict.nodupKeys, Bool.and_eq_true] at h
      by_cases hk : k' = k
      · subst hk
        simp [PyDict.set, PyDict.countKey, PyDict.countKey_eq_zero rest k' h.1]
      · simp [PyDict.set, PyDict.countKey, hk, PyDict.countKey_set rest k v h.2]

theorem PyDict.containsKey_set : (S : PyDict) → (k v : PyVal) →
    (S.set k v).containsKey k = true
  | .nil, k, v => by simp [PyDict.set, PyDict.containsKey]
  | .cons k' w rest, k, v => by
      by_cases h : k' = k
      · simp [PyDict.set, PyDict.containsKey, h]
      · simp [PyDict.set, PyDict.containsKey, h, PyDict.containsKey_set rest k v]

theorem PyDict.length_set : (S : PyDict) → (k v : PyVal) →
    (S.set k v).length = if S.containsKey k then S.length else S.length + 1
  | .nil, k, v => by simp [PyDict.set, PyDict.length, PyDict.containsKey]
  | .cons k' w rest, k, v => by
      by_cases h : k' = k
      · simp [PyDict.set, PyDict.length, PyDict.containsKey, h]
      · simp only [PyDict.set, PyDict.length, PyDict.containsKey, h, if_false,
          PyDict.length_set rest k v]
        by_cases hc : rest.containsKey k
        · simp [hc]
        · simp [hc]
          omega

theorem PyDict.allEntries_set {P : PyVal → PyVal → Prop} : (S : PyDict) → (k v : PyVal) →
    S.AllEntries P → P k v → (S.set k v).AllEntries P
  | .nil, k, v, _, hkv => ⟨hkv, trivial⟩
  | .cons k' w rest, k, v, ⟨h1, h2⟩, hkv => by
      by_cases h : k' = k
      · subst h
        simpa [PyDict.set, PyDict.AllEntries] using ⟨hkv, h2⟩
      · simpa [PyDict.set, PyDict.AllEntries, h] using
          ⟨h1, PyDict.allEntries_set rest k v h2 hkv⟩

/-- The success descriptor `store_invoice` builds for a given invoice number. -/
def store_success (invoice_number : PyVal) : PyVal :=
  .dict (PyDict.ofList
    [(.str "status", .str "success"),
     (.str "message", .str ("Stored invoice " ++ invoice_number.pyStr)),
     (.str "invoice_number", invoice_number)])

theorem ActionContext.get_fst (ctx : ActionContext) (d : PyDict) :
    (ctx.get d).1 = ctx.invoice_storage.getD d := by
  cases h : ctx.invoice_storage <;> simp [ActionContext.get, h]

theorem ActionContext.get_snd_storedInvoices (ctx : ActionContext) (d : PyDict) :
    ((ctx.get d).2).storedInvoices = (ctx.get d).1 := by
  cases h : ctx.invoice_storage <;>
    simp [ActionContext.get, ActionContext.storedInvoices, h]

theorem store_invoice_error_eq (ctx : ActionContext) (r : PyDict)
    (h : (r.getD (.str "invoice_number") .none).truthy = false) :
    store_invoice ctx r =
      (Except.error "Invoice data must contain an invoice number", (ctx.get .nil).2) := by
  simp [store_invoice, h]

theorem store_invoice_ok_eq (ctx : ActionContext) (r : PyDict)
    (h : (r.getD (.str "invoice_number") .none).truthy = true) :
    store_invoice ctx r =
      (Except.ok (store_success (r.getD (.str "invoice_number") .none)),
       ⟨some (ctx.storedInvoices.set (r.getD (.str "invoice_number") .none) (.dict r))⟩) := by
  simp [store_invoice, h, store_success, ActionContext.get_fst, ActionContext.storedInvoices]

theorem getD_truthy_of_get? {r : PyDict} {s : String}
    (hn : r.get? (.str "invoice_number") = some (.str s)) (hs : s ≠ "") :
    r.getD (.str "invoice_number") .none = .str s ∧
      (r.getD (.str "invoice_number") .none).truthy = true := by
  refine ⟨by simp [PyDict.getD, hn], ?_⟩
  simp [PyDict.getD, hn, PyVal.truthy, hs]

/-- C1: for every dict `invoice_data` in which the key `invoice_number` is absent or
maps to the empty string, `store_invoice` raises the MissingIdentifier-kind
`ValueError("Invoice data must contain an invoice number")` on any context, and the
context's invoice mapping is left unchanged — no entry added, removed or modified. -/
theorem store_missing_number_errors_never_mutates (ctx : ActionContext) (invoice_data : PyDict)
    (h : invoice_data.get? (.str "invoice_number") = Option.none ∨
         invoice_data.get? (.str "invoice_number") = some (.str "")) :
    (store_invoice ctx invoice_data).1 =
        Except.error "Invoice data must contain an invoice number" ∧
    ((store_invoice ctx invoice_data).2).storedInvoices = ctx.storedInvoices := by
  have ht : (invoice_data.getD (.str "invoice_number") .none).truthy = false := by
    rcases h with h | h
    · simp [PyDict.getD, h, PyVal.truthy]
    · simp [PyDict.getD, h, PyVal.truthy]
  rw [store_invoice_error_eq ctx invoice_data ht]
  refine ⟨rfl, ?_⟩
  rw [ActionContext.get_snd_storedInvoices, ActionContext.get_fst]
  rfl

theorem store_missing_number_errors_never_mutates_witness :
    ((store_invoice ⟨some (.cons (.str "INV-9") (.dict .nil) .nil)⟩
        (PyDict.ofList [(.str "date", .str "2024-01-01")])).1 =
      Except.error "Invoice data must contain an invoice number" ∧
     ((store_invoice ⟨some (.cons (.str "INV-9") (.dict .nil) .nil)⟩
        (PyDict.ofList [(.str "date", .str "2024-01-01")])).2).storedInvoices =
      (ActionContext.mk (some (.cons (.str "INV-9") (.dict .nil) .nil))).storedInvoices) ∧
    ((store_invoice ⟨some .nil⟩
        (PyDict.ofList [(.str "invoice_number", .str "")])).1 =
      Except.error "Invoice data must contain an invoice number" ∧
     ((store_invoice ⟨some .nil⟩
        (PyDict.ofList [(.str "invoice_number", .str "")])).2).storedInvoices =
      (ActionContext.mk (some .nil)).storedInvoices) :=
  ⟨store_missing_number_errors_never_mutates _ _ (Or.inl rfl),
   store_missing_number_errors_never_mutates _ _ (Or.inr rfl)⟩

/-- C2: for every record with a non-empty string `invoice_number` and every starting
context whose mapping is a well-formed dict, storing the record twice yields the same
final context (hence mapping) as storing it once; the mapping then holds exactly one
entry for that invoice number, and its contents equal the last stored value. -/
theorem store_idempotent_upsert (ctx : ActionContext) (r : PyDict) (s : String)
    (hn : r.get? (.str "invoice_number") = some (.str s)) (hs : s ≠ "")
    (hnd : ctx.storedInvoices.nodupKeys = true) :
    (store_invoice (store_invoice ctx r).2 r).2 = (store_invoice ctx r).2 ∧
    ((store_invoice ctx r).2).storedInvoices.countKey (.str s) = 1 ∧
    ((store_invoice ctx r).2).storedInvoices.get? (.str s) = some (.dict r) := by
  obtain ⟨he, ht⟩ := getD_truthy_of_get? hn hs
  have h1 := store_invoice_ok_eq ctx r ht
  rw [he] at h1
  have h2 : ((store_invoice ctx r).2).storedInvoices =
      ctx.storedInvoices.set (.str s) (.dict r) := by
    rw [h1]
    rfl
  refine ⟨?_, ?_, ?_⟩
  · have h3 := store_invoice_ok_eq (store_invoice ctx r).2 r ht
    rw [he] at h3
    rw [h3, h2, PyDict.set_set, h1]
  · rw [h2]
    exact PyDict.countKey_set _ _ _ hnd
  · rw [h2]
    exact PyDict.get?_set _ _ _

theorem store_idempotent_upsert_witness :
    (store_invoice
        (store_invoice ⟨some .nil⟩
          (PyDict.ofList [(.str "invoice_number", .str "INV-1"), (.str "date", .str "2024-01-01")])).2
        (PyDict.ofList [(.str "invoice_number", .str "INV-1"), (.str "date", .str "2024-01-01")])).2 =
      (store_invoice ⟨some .nil⟩
        (PyDict.ofList [(.str "invoice_number", .str "INV-1"), (.str "date", .str "2024-01-01")])).2 ∧
    ((store_invoice ⟨some .nil⟩
        (PyDict.ofList [(.str "invoice_number", .str "INV-1"), (.str "date", .str "2024-01-01")])).2).storedInvoices.countKey
        (.str "INV-1") = 1 ∧
    ((store_invoice ⟨some .nil⟩
        (PyDict.ofList [(.str "invoice_number", .str "INV-1"), (.str "date", .str "2024-01-01")])).2).storedInvoices.get?
        (.str "INV-1") =
      some (.dict (PyDict.ofList
        [(.str "invoice_number", .str "INV-1"), (.str "date", .str "2024-01-01")])) :=
  store_idempotent_upsert ⟨some .nil⟩ _ "INV-1" rfl (by decide) rfl

/-- C3: for two records sharing the same non-empty `invoice_number`, storing the first
then the second leaves the mapping entry at that key equal to the second record, and
the second store does not change the mapping's size. -/
theorem store_overwrites_same_key (ctx : ActionContext) (r1 r2 : PyDict) (s : String)
    (hn1 : r1.get? (.str "invoice_number") = some (.str s))
    (hn2 : r2.get? (.str "invoice_number") = some (.str s)) (hs : s ≠ "") :
    ((store_invoice (store_invoice ctx r1).2 r2).2).storedInvoices.get? (.str s) =
      some (.dict r2) ∧
    ((store_invoice (store_invoice ctx r1).2 r2).2).storedInvoices.length =
      ((store_invoice ctx r1).2).storedInvoices.length := by
  obtain ⟨he1, ht1⟩ := getD_truthy_of_get? hn1 hs
  obtain ⟨he2, ht2⟩ := getD_truthy_of_get? hn2 hs
  have h1 := store_invoice_ok_eq ctx r1 ht1
  rw [he1] at h1
  have hst1 : ((store_invoice ctx r1).2).storedInvoices =
      ctx.storedInvoices.set (.str s) (.dict r1) := by
    rw [h1]
    rfl
  have h2 := store_invoice_ok_eq (store_invoice ctx r1).2 r2 ht2
  rw [he2] at h2
  have hst2 : ((store_invoice (store_invoice ctx r1).2 r2).2).storedInvoices =
      (((store_invoice ctx r1).2).storedInvoices).set (.str s) (.dict r2) := by
    rw [h2]
    rfl
  refine ⟨?_, ?_⟩
  · rw [hst2]
    exact PyDict.get?_set _ _ _
  · rw [hst2, PyDict.length_set, hst1, PyDict.containsKey_set]
    simp

theorem store_overwrites_same_key_witness :
    (((store_invoice
        (store_invoice ⟨some .nil⟩
          (PyDict.ofList [(.str "invoice_number", .str "INV-1"),
            (.str "amount", .dict (.ofList [(.str "value", .int 100), (.str "currency", .str "USD")])),
            (.str "date", .str "2024-01-01")])).2
        (PyDict.ofList [(.str "invoice_number", .str "INV-1"),
          (.str "amount", .dict (.ofList [(.str "value", .int 200), (.str "currency", .str "USD")])),
          (.str "date", .str "2024-01-02")])).2).storedInvoices.get? (.str "INV-1") =
      some (.dict (PyDict.ofList [(.str "invoice_number", .str "INV-1"),
        (.str "amount", .dict (.ofList [(.str "value", .int 200), (.str "currency", .str "USD")])),
        (.str "date", .str "2024-01-02")])) ∧
     ((store_invoice
        (store_invoice ⟨some .nil⟩
          (PyDict.ofList [(.str "invoice_number", .str "INV-1"),
            (.str "amount", .dict (.ofList [(.str "value", .int 100), (.str "currency", .str "USD")])),
            (.str "date", .str "2024-01-01")])).2
        (PyDict.ofList [(.str "invoice_number", .str "INV-1"),
          (.str "amount", .dict (.ofList [(.str "value", .int 200), (.str "currency", .str "USD")])),
          (.str "date", .str "2024-01-02")])).2).storedInvoices.length =
      ((store_invoice ⟨some .nil⟩
        (PyDict.ofList [(.str "invoice_number", .str "INV-1"),
          (.str "amount", .dict (.ofList [(.str "value", .int 100), (.str "currency", .str "USD")])),
          (.str "date", .str "2024-01-01")])).2).storedInvoices.length) ∧
    (PyDict.ofList [(.str "invoice_number", .str "INV-1"),
        (.str "amount", .dict (.ofList [(.str "value", .int 200), (.str "currency", .str "USD")])),
        (.str "date", .str "2024-01-02")]).get? (.str "amount") =
      some (.dict (.ofList [(.str "value", .int 200), (.str "currency", .str "USD")])) ∧
    (PyDict.ofList [(.str "invoice_number", .str "INV-1"),
        (.str "amount", .dict (.ofList [(.str "value", .int 200), (.str "currency", .str "USD")])),
        (.str "date", .str "2024-01-02")]).get? (.str "date") = some (.str "2024-01-02") :=
  ⟨store_overwrites_same_key ⟨some .nil⟩ _ _ "INV-1" rfl rfl (by decide), by decide, by decide⟩

/-- C4: round trip — after a successful `store_invoice` of a record with non-empty
string `invoice_number`, reading the context's mapping at that invoice number returns
exactly the stored record. -/
theorem store_round_trip (ctx : ActionContext) (r : PyDict) (s : String)
    (hn : r.get? (.str "invoice_number") = some (.str s)) (hs : s ≠ "") :
    (store_invoice ctx r).1 = Except.ok (store_success (.str s)) ∧
    ((store_invoice ctx r).2).storedInvoices.get? (.str s) = some (.dict r) := by
  obtain ⟨he, ht⟩ := getD_truthy_of_get? hn hs
  have h1 := store_invoice_ok_eq ctx r ht
  rw [he] at h1
  refine ⟨by rw [h1], ?_⟩
  have hst : ((store_invoice ctx r).2).storedInvoices =
      ctx.storedInvoices.set (.str s) (.dict r) := by
    rw [h1]
    rfl
  rw [hst]
  exact PyDict.get?_set _ _ _

theorem store_round_trip_witness :
    (store_invoice ⟨some .nil⟩
        (PyDict.ofList [(.str "invoice_number", .str "INV-100"), (.str "date", .str "2024-01-01"),
          (.str "amount", .dict (.ofList [(.str "value", .int 250), (.str "currency", .str "USD")]))])).1 =
      Except.ok (store_success (.str "INV-100")) ∧
    ((store_invoice ⟨some .nil⟩
        (PyDict.ofList [(.str "invoice_number", .str "INV-100"), (.str "date", .str "2024-01-01"),
          (.str "amount", .dict (.ofList [(.str "value", .int 250), (.str "currency", .str "USD")]))])).2).storedInvoices.get?
        (.str "INV-100") =
      some (.dict (PyDict.ofList
        [(.str "invoice_number", .str "INV-100"), (.str "date", .str "2024-01-01"),
         (.str "amount", .dict (.ofList [(.str "value", .int 250), (.str "currency", .str "USD")]))])) :=
  store_round_trip ⟨some .nil⟩ _ "INV-100" rfl (by decide)

/-- C5: on a context that does not yet contain the invoice mapping, `store_invoice`
lazily creates the mapping (per the spec-modelled `ActionContext.get`), writes the
record at its invoice number, and the resulting context holds exactly that one-entry
mapping — the mapping slot is the only component of the context, so this is the only
observable state change — and the written entry is observable by reading the context's
mapping at that key. -/
theorem store_lazily_creates_mapping (r : PyDict) (s : String)
    (hn : r.get? (.str "invoice_number") = some (.str s)) (hs : s ≠ "") :
    store_invoice ⟨Option.none⟩ r =
      (Except.ok (store_success (.str s)), ⟨some (.cons (.str s) (.dict r) .nil)⟩) ∧
    ((store_invoice ⟨Option.none⟩ r).2).storedInvoices.get? (.str s) = some (.dict r) := by
  obtain ⟨he, ht⟩ := getD_truthy_of_get? hn hs
  have h1 := store_invoice_ok_eq ⟨Option.none⟩ r ht
  rw [he] at h1
  refine ⟨by rw [h1]; rfl, ?_⟩
  rw [h1]
  show (PyDict.cons (.str s) (.dict r) .nil).get? (.str s) = some (.dict r)
  simp [PyDict.get?]

theorem store_lazily_creates_mapping_witness :
    store_invoice ⟨Option.none⟩
        (PyDict.ofList [(.str "invoice_number", .str "INV-100"), (.str "date", .str "2024-01-01")]) =
      (Except.ok (store_success (.str "INV-100")),
       ⟨some (.cons (.str "INV-100")
          (.dict (PyDict.ofList
            [(.str "invoice_number", .str "INV-100"), (.str "date", .str "2024-01-01")])) .nil)⟩) ∧
    ((store_invoice ⟨Option.none⟩
        (PyDict.ofList [(.str "invoice_number", .str "INV-100"), (.str "date", .str "2024-01-01")])).2).storedInvoices.get?
        (.str "INV-100") =
      some (.dict (PyDict.ofList
        [(.str "invoice_number", .str "INV-100"), (.str "date", .str "2024-01-01")])) :=
  store_lazily_creates_mapping _ "INV-100" rfl (by decide)

/-- C6: for every record whose `invoice_number` value is truthy, `store_invoice`
returns the success descriptor `{status: "success", message: "Stored invoice " + the
rendered invoice number, invoice_number: the invoice number}` — and since the starting
context is universally quantified and absent from the right-hand side, the same
success shape is returned whether the call inserted a new entry or updated an existing
one. -/
theorem store_success_descriptor (ctx : ActionContext) (r : PyDict) (v : PyVal)
    (hn : r.get? (.str "invoice_number") = some v) (ht : v.truthy = true) :
    (store_invoice ctx r).1 =
      Except.ok (.dict (PyDict.ofList
        [(.str "status", .str "success"),
         (.str "message", .str ("Stored invoice " ++ v.pyStr)),
         (.str "invoice_number", v)])) := by
  have he : r.getD (.str "invoice_number") .none = v := by simp [PyDict.getD, hn]
  have ht' : (r.getD (.str "invoice_number") .none).truthy = true := by rw [he]; exact ht
  have h1 := store_invoice_ok_eq ctx r ht'
  rw [he] at h1
  rw [h1]
  rfl

theorem store_success_descriptor_witness :
    (store_invoice ⟨some (.cons (.str "INV-7") (.dict .nil) .nil)⟩
        (PyDict.ofList [(.str "invoice_number", .str "INV-7"), (.str "date", .str "2024-03-03")])).1 =
      Except.ok (.dict (PyDict.ofList
        [(.str "status", .str "success"),
         (.str "message", .str ("Stored invoice " ++ (PyVal.str "INV-7").pyStr)),
         (.str "invoice_number", .str "INV-7")])) :=
  store_success_descriptor ⟨some (.cons (.str "INV-7") (.dict .nil) .nil)⟩ _ (.str "INV-7")
    rfl (by decide)

/-- C7: for every document text, if the external capability `prompt_llm_for_json`
returns a dict `d` (leaving the context as it returns it), then each
`extract_invoice_data` variant returns exactly that result, unmodified — no
transformation, filtering or re-validation happens between the capability and the
caller. -/
theorem extract_returns_capability_dict {ε : Type}
    (llm1 llm2 : ActionContext → PyVal → String → Except ε PyDict × ActionContext)
    (ctx ctx' : ActionContext) (document_text : String) (d : PyDict)
    (h1 : llm1 ctx AgentsPromptingStructuredData.invoice_schema
        (AgentsPromptingStructuredData.extraction_prompt document_text) = (Except.ok d, ctx'))
    (h2 : llm2 ctx AgentsFlexibilityAndReliability.invoice_schema
        (AgentsFlexibilityAndReliability.extraction_prompt document_text) = (Except.ok d, ctx')) :
    AgentsPromptingStructuredData.extract_invoice_data llm1 ctx document_text =
      (Except.ok d, ctx') ∧
    AgentsFlexibilityAndReliability.extract_invoice_data llm2 ctx document_text =
      (Except.ok d, ctx') :=
  ⟨h1, h2⟩

theorem extract_returns_capability_dict_witness :
    AgentsPromptingStructuredData.extract_invoice_data
        (fun c _ _ => ((Except.ok (PyDict.ofList
          [(.str "invoice_number", .str "A1"), (.str "date", .str "2024-02-02"),
           (.str "amount", .dict (.ofList [(.str "value", .int 10), (.str "currency", .str "EUR")]))]) : Except String PyDict), c))
        ⟨some .nil⟩ "Invoice text" =
      ((Except.ok (PyDict.ofList
        [(.str "invoice_number", .str "A1"), (.str "date", .str "2024-02-02"),
         (.str "amount", .dict (.ofList [(.str "value", .int 10), (.str "currency", .str "EUR")]))]) : Except String PyDict),
       (⟨some .nil⟩ : ActionContext)) ∧
    AgentsFlexibilityAndReliability.extract_invoice_data
        (fun c _ _ => ((Except.ok (PyDict.ofList
          [(.str "invoice_number", .str "A1"), (.str "date", .str "2024-02-02"),
           (.str "amount", .dict (.ofList [(.str "value", .int 10), (.str "currency", .str "EUR")]))]) : Except String PyDict), c))
        ⟨some .nil⟩ "Invoice text" =
      ((Except.ok (PyDict.ofList
        [(.str "invoice_number", .str "A1"), (.str "date", .str "2024-02-02"),
         (.str "amount", .dict (.ofList [(.str "value", .int 10), (.str "currency", .str "EUR")]))]) : Except String PyDict),
       (⟨some .nil⟩ : ActionContext)) :=
  extract_returns_capability_dict (ε := String) _ _ ⟨some .nil⟩ ⟨some .nil⟩ "Invoice text" _ rfl rfl

/-- C8: for every document text, if the external capability raises an error (the stub
raising it leaves the context untouched), each `extract_invoice_data` variant raises
that same error unchanged — no catch, retry, downgrade or fallback — and the context,
hence its invoice mapping, is unchanged: no mapping mutation results from the failed
extraction. -/
theorem extract_propagates_capability_error {ε : Type} (e : ε)
    (llm1 llm2 : ActionContext → PyVal → String → Except ε PyDict × ActionContext)
    (ctx : ActionContext) (document_text : String)
    (h1 : llm1 ctx AgentsPromptingStructuredData.invoice_schema
        (AgentsPromptingStructuredData.extraction_prompt document_text) = (Except.error e, ctx))
    (h2 : llm2 ctx AgentsFlexibilityAndReliability.invoice_schema
        (AgentsFlexibilityAndReliability.extraction_prompt document_text) = (Except.error e, ctx)) :
    AgentsPromptingStructuredData.extract_invoice_data llm1 ctx document_text =
      (Except.error e, ctx) ∧
    AgentsFlexibilityAndReliability.extract_invoice_data llm2 ctx document_text =
      (Except.error e, ctx) ∧
    ((AgentsPromptingStructuredData.extract_invoice_data llm1 ctx document_text).2).storedInvoices =
      ctx.storedInvoices ∧
    ((AgentsFlexibilityAndReliability.extract_invoice_data llm2 ctx document_text).2).storedInvoices =
      ctx.storedInvoices := by
  refine ⟨h1, h2, ?_, ?_⟩
  · show (llm1 ctx _ _).2.storedInvoices = ctx.storedInvoices
    rw [h1]
  · show (llm2 ctx _ _).2.storedInvoices = ctx.storedInvoices
    rw [h2]

theorem extract_propagates_capability_error_witness :
    AgentsPromptingStructuredData.extract_invoice_data
        (fun c _ _ => ((Except.error "schema violation" : Except String PyDict), c))
        ⟨some (.cons (.str "INV-1") (.dict .nil) .nil)⟩ "garbled text" =
      (Except.error "schema violation", (⟨some (.cons (.str "INV-1") (.dict .nil) .nil)⟩ : ActionContext)) ∧
    AgentsFlexibilityAndReliability.extract_invoice_data
        (fun c _ _ => ((Except.error "schema violation" : Except String PyDict), c))
        ⟨some (.cons (.str "INV-1") (.dict .nil) .nil)⟩ "garbled text" =
      (Except.error "schema violation", (⟨some (.cons (.str "INV-1") (.dict .nil) .nil)⟩ : ActionContext)) ∧
    ((AgentsPromptingStructuredData.extract_invoice_data
        (fun c _ _ => ((Except.error "schema violation" : Except String PyDict), c))
        ⟨some (.cons (.str "INV-1") (.dict .nil) .nil)⟩ "garbled text").2).storedInvoices =
      (⟨some (.cons (.str "INV-1") (.dict .nil) .nil)⟩ : ActionContext).storedInvoices ∧
    ((AgentsFlexibilityAndReliability.extract_invoice_data
        (fun c _ _ => ((Except.error "schema violation" : Except String PyDict), c))
        ⟨some (.cons (.str "INV-1") (.dict .nil) .nil)⟩ "garbled text").2).storedInvoices =
      (⟨some (.cons (.str "INV-1") (.dict .nil) .nil)⟩ : ActionContext).storedInvoices :=
  extract_propagates_capability_error "schema violation" _ _
    ⟨some (.cons (.str "INV-1") (.dict .nil) .nil)⟩ "garbled text" rfl rfl

/-- A sequence of `store_invoice` calls threaded through the context (errors
propagate the context of the failed call, exactly as the code leaves it). -/
def storeSeq (ctx : ActionContext) : List PyDict → ActionContext
  | [] => ctx
  | d :: rest => storeSeq ((store_invoice ctx d).2) rest

/-- The invariant of the invoice mapping: every stored value is a dict whose
`invoice_number` field is truthy (for a string key: non-empty) and equal to the key
it is stored under — the invoice number is the sole identity and upsert key. -/
def StoreInvariant (S : PyDict) : Prop :=
  S.AllEntries (fun k v =>
    k.truthy = true ∧ ∃ d, v = PyVal.dict d ∧ d.get? (.str "invoice_number") = some k)

theorem storeInvariant_step (ctx : ActionContext) (d : PyDict)
    (h : StoreInvariant ctx.storedInvoices) :
    StoreInvariant ((store_invoice ctx d).2).storedInvoices := by
  by_cases ht : (d.getD (.str "invoice_number") .none).truthy = true
  · have hget : d.get? (.str "invoice_number") =
        some (d.getD (.str "invoice_number") .none) := by
      cases hg : d.get? (.str "invoice_number") with
      | none =>
          exfalso
          rw [PyDict.getD, hg] at ht
          simp [PyVal.truthy] at ht
      | some v => simp [PyDict.getD, hg]
    rw [store_invoice_ok_eq ctx d ht]
    exact PyDict.allEntries_set _ _ _ h ⟨ht, d, rfl, hget⟩
  · rw [store_invoice_error_eq ctx d (by simpa using ht)]
    show StoreInvariant ((ctx.get .nil).2).storedInvoices
    rw [ActionContext.get_snd_storedInvoices, ActionContext.get_fst]
    exact h

/-- C9: starting from a context whose invoice mapping satisfies the invariant, every
sequence of `store_invoice` operations preserves it: every record held in the mapping
has a truthy (for strings: non-empty) `invoice_number`, stored under the key equal to
that invoice number. -/
theorem store_invariant_preserved (ctx : ActionContext) (ds : List PyDict)
    (h : StoreInvariant ctx.storedInvoices) :
    StoreInvariant ((storeSeq ctx ds).storedInvoices) := by
  induction ds generalizing ctx with
  | nil => exact h
  | cons d rest ih => exact ih _ (storeInvariant_step ctx d h)

theorem store_invariant_preserved_witness :
    StoreInvariant ((storeSeq ⟨some .nil⟩
      [PyDict.ofList [(.str "invoice_number", .str "INV-1"), (.str "date", .str "2024-01-01")],
       PyDict.ofList [(.str "date", .str "2024-01-02")],
       PyDict.ofList [(.str "invoice_number", .str "INV-2"), (.str "date", .str "2024-01-03")]]).storedInvoices) :=
  store_invariant_preserved ⟨some .nil⟩ _ trivial

/-- C10: the precondition check of `store_invoice` is Python truthiness, not key
presence or string emptiness: the call raises the `ValueError` exactly when the value
found at `invoice_number` (defaulting to `None` when the key is absent) is falsy —
`None`, `False`, `0`, the empty string, an empty collection — while any truthy value,
string or not, is accepted and used as the mapping key without any type check. -/
theorem store_precondition_is_truthiness (ctx : ActionContext) (invoice_data : PyDict) :
    ((store_invoice ctx invoice_data).1 =
        Except.error "Invoice data must contain an invoice number" ↔
      (invoice_data.getD (.str "invoice_number") .none).truthy = false) ∧
    (∀ v : PyVal, invoice_data.get? (.str "invoice_number") = some v → v.truthy = true →
      (store_invoice ctx invoice_data).1 = Except.ok (store_success v) ∧
      ((store_invoice ctx invoice_data).2).storedInvoices.get? v =
        some (.dict invoice_data)) := by
  by_cases ht : (invoice_data.getD (.str "invoice_number") .none).truthy = true
  · have h1 := store_invoice_ok_eq ctx invoice_data ht
    constructor
    · rw [h1]
      simp [ht]
    · intro v hv hvt
      have he : invoice_data.getD (.str "invoice_number") .none = v := by
        simp [PyDict.getD, hv]
      rw [he] at h1
      refine ⟨by rw [h1], ?_⟩
      have hst : ((store_invoice ctx invoice_data).2).storedInvoices =
          ctx.storedInvoices.set v (.dict invoice_data) := by
        rw [h1]
        rfl
      rw [hst]
      exact PyDict.get?_set _ _ _
  · have ht' : (invoice_data.getD (.str "invoice_number") .none).truthy = false := by
      simpa using ht
    have h1 := store_invoice_error_eq ctx invoice_data ht'
    constructor
    · rw [h1]
      simp [ht']
    · intro v hv hvt
      exfalso
      have he : invoice_data.getD (.str "invoice_number") .none = v := by
        simp [PyDict.getD, hv]
      rw [he, hvt] at ht'
      exact absurd ht' (by simp)

theorem store_precondition_is_truthiness_witness :
    ((store_invoice ⟨some .nil⟩ (PyDict.ofList [(.str "invoice_number", .int 0)])).1 =
        Except.error "Invoice data must contain an invoice number" ↔
      ((PyDict.ofList [(.str "invoice_number", .int 0)]).getD
        (.str "invoice_number") .none).truthy = false) ∧
    (store_invoice ⟨some .nil⟩ (PyDict.ofList [(.str "invoice_number", .int 7)])).1 =
      Except.ok (store_success (.int 7)) ∧
    ((store_invoice ⟨some .nil⟩
        (PyDict.ofList [(.str "invoice_number", .int 7)])).2).storedInvoices.get? (.int 7) =
      some (.dict (PyDict.ofList [(.str "invoice_number", .int 7)])) :=
  ⟨(store_precondition_is_truthiness ⟨some .nil⟩ _).1,
   (store_precondition_is_truthiness ⟨some .nil⟩
      (PyDict.ofList [(.str "invoice_number", .int 7)])).2 (.int 7) rfl (by decide)⟩
